import Mathlib

/-!
# MiniJarvis native library (`app/src/main/jni/minijarvis_jni.cpp`)

A shallow embedding of the three JNI entry points of the MiniJarvis native
library and the properties of them that the specification talks about.

The C++ functions have two kinds of effect: they call
`__android_log_print` (through the `LOGI` macro) and they call into the
`JNIEnv` (`GetStringUTFChars`, `NewStringUTF`).  Both are made explicit: a
`Process` value carries the log written so far and the character buffers
handed out by `GetStringUTFChars` that have not been released, and every
entry point is a function from the process state before the call to the
returned value and the process state after it.
-/

namespace MiniJarvis

/-! ## JNI primitive types -/

/-- The JNI `jint`, a signed 32-bit integer.  The entry points never do
arithmetic on a `jint`, so its value is kept as an integer. -/
abbrev jint := Int

/-- The JNI `jlong`, a signed 64-bit integer; `modelPtr` and the value
returned by `nativeInit` have this type. -/
abbrev jlong := Int

/-- The JNI `jstring`, a non-null reference to a Java string, kept as the
string it refers to. -/
abbrev jstring := String

/-- The JNI `jfloat`, an IEEE-754 binary32 value, kept as its bit pattern
(sign bit 31, exponent bits 30..23, fraction bits 22..0). -/
structure jfloat where
  bits : Nat
  deriving DecidableEq, Repr

namespace jfloat

/-- Bit 31 of the pattern. -/
def signBit (f : jfloat) : Nat := f.bits / 2 ^ 31 % 2

/-- Bits 30..23 of the pattern. -/
def exponent (f : jfloat) : Nat := f.bits / 2 ^ 23 % 2 ^ 8

/-- Bits 22..0 of the pattern. -/
def fraction (f : jfloat) : Nat := f.bits % 2 ^ 23

/-- Not-a-number: all exponent bits set and a non-zero fraction. -/
def isNaN (f : jfloat) : Bool := f.exponent == 255 && f.fraction != 0

/-- Positive or negative zero. -/
def isZero (f : jfloat) : Bool := f.exponent == 0 && f.fraction == 0

/-- The C comparison `f < 0.0f`: the sign is set and the value is neither a
NaN nor a zero. -/
def ltZero (f : jfloat) : Bool := f.signBit == 1 && !f.isNaN && !f.isZero

/-- The C comparison `f >= 0.0f`: not a NaN, and either the sign is clear or
the value is a zero. -/
def geZero (f : jfloat) : Bool := !f.isNaN && (f.signBit == 0 || f.isZero)

/-- The literal `0.0f`. -/
def zero : jfloat := ⟨0⟩

/-- The literal `0.2f` (bit pattern `0x3E4CCCCD`). -/
def twoTenths : jfloat := ⟨0x3E4CCCCD⟩

/-- The literal `-1.0f` (bit pattern `0xBF800000`). -/
def minusOne : jfloat := ⟨0xBF800000⟩

end jfloat

/-! ## Logging (`android/log.h` and the macros of lines 18-20) -/

/-- The two `android_LogPriority` values the source names. -/
inductive LogPriority where
  | ANDROID_LOG_INFO
  | ANDROID_LOG_ERROR
  deriving DecidableEq, Repr

/-- One call of `__android_log_print`: priority, tag, format string and the
string arguments of the format. -/
structure LogRecord where
  priority : LogPriority
  tag : String
  fmt : String
  args : List String
  deriving DecidableEq, Repr

/-- The macro `LOG_TAG` of line 18, `"MiniJarvisJNI"`. -/
def LOG_TAG : String := "MiniJarvisJNI"

/-- The state of the process that the entry points can act on. -/
structure Process where
  /-- the records written by `__android_log_print`, oldest first -/
  log : List LogRecord
  /-- the buffers returned by `GetStringUTFChars` and not released since,
  newest first -/
  utfChars : List String
  deriving DecidableEq, Repr

/-- A process that has logged nothing and holds no buffer. -/
def Process.start : Process := ⟨[], []⟩

/-- The call `__android_log_print(priority, tag, fmt, ...)`: one more record
at the end of the log. -/
def android_log_print (priority : LogPriority) (tag fmt : String)
    (args : List String) (p : Process) : Process :=
  ⟨p.log ++ [⟨priority, tag, fmt, args⟩], p.utfChars⟩

/-- The macro `LOGI(...)` of line 19:
`__android_log_print(ANDROID_LOG_INFO, LOG_TAG, __VA_ARGS__)`. -/
def LOGI (fmt : String) (args : List String) (p : Process) : Process :=
  android_log_print LogPriority.ANDROID_LOG_INFO LOG_TAG fmt args p

/-- The macro `LOGE(...)` of line 20:
`__android_log_print(ANDROID_LOG_ERROR, LOG_TAG, __VA_ARGS__)`.  No entry
point uses it. -/
def LOGE (fmt : String) (args : List String) (p : Process) : Process :=
  android_log_print LogPriority.ANDROID_LOG_ERROR LOG_TAG fmt args p

/-! ## The `JNIEnv` functions the source calls -/

/-- The call `env->GetStringUTFChars(s, nullptr)`: the characters of `s`, in a buffer
that stays allocated until `ReleaseStringUTFChars` is called on it. -/
def GetStringUTFChars (s : jstring) (p : Process) : String × Process :=
  (s, ⟨p.log, s :: p.utfChars⟩)

/-- The call `env->NewStringUTF(bytes)`: a Java string with these characters. -/
def NewStringUTF (bytes : String) : jstring := bytes

/-! ## The entry points -/

/-- The entry point `Java_com_minijarvis_app_llm_LLMEngine_nativeInit`
(lines 33-54): fetches the characters of the model path, logs them at info
level and returns 0.  The buffer of characters is not released. -/
def nativeInit (modelPath : jstring) (_contextSize : jint)
    (_temperature : jfloat) (_maxTokens : jint) (p : Process) :
    jlong × Process :=
  let (chars, p₁) := GetStringUTFChars modelPath p
  let p₂ := LOGI "Initializing LLM model at: %s" [chars] p₁
  (0, p₂)

/-- The entry point `Java_com_minijarvis_app_llm_LLMEngine_nativeGenerate`
(lines 65-84): logs at info level and returns `NewStringUTF("")`. -/
def nativeGenerate (_modelPtr : jlong) (_prompt : jstring) (p : Process) :
    jstring × Process :=
  let p₁ := LOGI "Generating response for prompt" [] p
  (NewStringUTF "", p₁)

/-- The entry point `Java_com_minijarvis_app_llm_LLMEngine_nativeCleanup`
(lines 92-104): logs at info level; the function is `void`. -/
def nativeCleanup (_modelPtr : jlong) (p : Process) : Process :=
  LOGI "Cleaning up LLM model" [] p

/-! ## Sequences of calls -/

/-- A call of one of the three entry points with its arguments. -/
inductive Call where
  | init (modelPath : jstring) (contextSize : jint) (temperature : jfloat)
      (maxTokens : jint)
  | generate (modelPtr : jlong) (prompt : jstring)
  | cleanup (modelPtr : jlong)
  deriving DecidableEq, Repr

/-- What a call hands back to the Java caller. -/
inductive Returned where
  | handle (h : jlong)
  | text (s : jstring)
  | void
  deriving DecidableEq, Repr

/-- Performs one call. -/
def Call.perform : Call → Process → Returned × Process
  | .init modelPath contextSize temperature maxTokens, p =>
      let r := nativeInit modelPath contextSize temperature maxTokens p
      (.handle r.1, r.2)
  | .generate modelPtr prompt, p =>
      let r := nativeGenerate modelPtr prompt p
      (.text r.1, r.2)
  | .cleanup modelPtr, p => (.void, nativeCleanup modelPtr p)

/-- Performs the calls in order; the returned values come out in call
order. -/
def performAll : List Call → Process → List Returned × Process
  | [], p => ([], p)
  | c :: cs, p =>
      let r := c.perform p
      let rs := performAll cs r.2
      (r.1 :: rs.1, rs.2)

/-- The record a call of `nativeInit` on `modelPath` writes. -/
def initRecord (modelPath : jstring) : LogRecord :=
  ⟨LogPriority.ANDROID_LOG_INFO, LOG_TAG, "Initializing LLM model at: %s", [modelPath]⟩

/-- The record a call of `nativeGenerate` writes. -/
def generateRecord : LogRecord :=
  ⟨LogPriority.ANDROID_LOG_INFO, LOG_TAG, "Generating response for prompt", []⟩

/-- The record a call of `nativeCleanup` writes. -/
def cleanupRecord : LogRecord :=
  ⟨LogPriority.ANDROID_LOG_INFO, LOG_TAG, "Cleaning up LLM model", []⟩

/-- The record a call writes. -/
def Call.record : Call → LogRecord
  | .init modelPath _ _ _ => initRecord modelPath
  | .generate _ _ => generateRecord
  | .cleanup _ => cleanupRecord

/-! ## Basic facts about single calls -/

theorem nativeInit_eq (modelPath : jstring) (contextSize : jint)
    (temperature : jfloat) (maxTokens : jint) (p : Process) :
    nativeInit modelPath contextSize temperature maxTokens p =
      (0, ⟨p.log ++ [initRecord modelPath], modelPath :: p.utfChars⟩) := rfl

theorem nativeGenerate_eq (modelPtr : jlong) (prompt : jstring) (p : Process) :
    nativeGenerate modelPtr prompt p =
      ("", ⟨p.log ++ [generateRecord], p.utfChars⟩) := rfl

theorem nativeCleanup_eq (modelPtr : jlong) (p : Process) :
    nativeCleanup modelPtr p = ⟨p.log ++ [cleanupRecord], p.utfChars⟩ := rfl

theorem nativeCleanup_iterate (modelPtr : jlong) (n : Nat) (p : Process) :
    (nativeCleanup modelPtr)^[n] p =
      ⟨p.log ++ List.replicate n cleanupRecord, p.utfChars⟩ := by
  induction n generalizing p with
  | zero => simp
  | succ k ih =>
      rw [Function.iterate_succ_apply, ih, nativeCleanup_eq]
      simp [List.replicate_succ]

/-! ## Basic facts about sequences of calls -/

theorem Call.perform_log (c : Call) (p : Process) :
    (c.perform p).2.log = p.log ++ [c.record] := by
  cases c <;> rfl

theorem Call.perform_returned (c : Call) (p q : Process) :
    (c.perform p).1 = (c.perform q).1 := by
  cases c <;> rfl

theorem performAll_log (calls : List Call) (p : Process) :
    (performAll calls p).2.log = p.log ++ calls.map Call.record := by
  induction calls generalizing p with
  | nil => simp [performAll]
  | cons c cs ih =>
      simp only [performAll, ih, Call.perform_log, List.map_cons]
      simp

theorem performAll_returned (calls : List Call) (p q : Process) :
    (performAll calls p).1 = (performAll calls q).1 := by
  induction calls generalizing p q with
  | nil => rfl
  | cons c cs ih =>
      simp only [performAll]
      rw [Call.perform_returned c p q, ih (c.perform p).2 (c.perform q).2]

theorem Call.record_priority (c : Call) :
    c.record.priority = LogPriority.ANDROID_LOG_INFO := by
  cases c <;> rfl

theorem Call.record_tag (c : Call) : c.record.tag = LOG_TAG := by
  cases c <;> rfl

theorem performAll_handle_zero (calls : List Call) (p : Process) (h : jlong) :
    Returned.handle h ∈ (performAll calls p).1 → h = 0 := by
  induction calls generalizing p with
  | nil => intro hm; simp [performAll] at hm
  | cons c cs ih =>
      intro hm
      simp only [performAll, List.mem_cons] at hm
      rcases hm with hm | hm
      · cases c with
        | init modelPath contextSize temperature maxTokens =>
            simp only [Call.perform, nativeInit_eq] at hm
            exact Returned.handle.inj hm
        | generate modelPtr prompt => simp [Call.perform] at hm
        | cleanup modelPtr => simp [Call.perform] at hm
      · exact ih _ hm

/-! ## The claims of the specification -/

/-- C1, as the specification states it, fails at its own example: the
sampling configuration `(1024, 0.2f, 120)` is valid (context size and token
limit at least 1, temperature at least 0), and `nativeInit` on
`"tinymodel.gguf"` does not return a non-zero handle.  The function does not
open the file, so this holds whatever the file contains. -/
theorem init_valid_config_not_nonzero :
    ((1 : jint) ≤ 1024 ∧ jfloat.twoTenths.geZero = true ∧ (1 : jint) ≤ 120) ∧
      ¬ (nativeInit "tinymodel.gguf" 1024 jfloat.twoTenths 120 Process.start).1 ≠ 0 := by
  refine ⟨⟨by decide, by decide, by decide⟩, ?_⟩
  simp [nativeInit_eq]

/-- C1, amended: for every model path and every sampling configuration,
valid or not, `nativeInit` returns the handle 0, and `nativeCleanup` on that
handle returns normally however many times it is called: `n` calls leave
everything as it was except for `n` more info records in the log. -/
theorem init_returns_zero_then_cleanup_repeats (modelPath : jstring)
    (contextSize : jint) (temperature : jfloat) (maxTokens : jint)
    (p : Process) :
    (nativeInit modelPath contextSize temperature maxTokens p).1 = 0 ∧
      ∀ n : Nat,
        (nativeCleanup
            (nativeInit modelPath contextSize temperature maxTokens p).1)^[n]
          (nativeInit modelPath contextSize temperature maxTokens p).2 =
        ⟨(nativeInit modelPath contextSize temperature maxTokens p).2.log ++
            List.replicate n cleanupRecord,
          (nativeInit modelPath contextSize temperature maxTokens p).2.utfChars⟩ :=
  ⟨rfl, fun n => nativeCleanup_iterate _ n _⟩

/-- C3: for every model path (so for the path of every malformed file, the
file not being opened), every sampling configuration and every process
state, the call of `nativeInit` returns, and what it returns is the failure
value 0. -/
theorem init_returns_zero_on_every_path (modelPath : jstring)
    (contextSize : jint) (temperature : jfloat) (maxTokens : jint)
    (p : Process) :
    ∃ q : Process,
      nativeInit modelPath contextSize temperature maxTokens p = (0, q) :=
  ⟨_, nativeInit_eq modelPath contextSize temperature maxTokens p⟩

/-- C4: after any sequence of earlier calls from any process state, and for
every handle and prompt (no handle identifies a live session: 0, a handle
never returned by `nativeInit`, a handle already passed to `nativeCleanup`),
`nativeGenerate` returns, and returns the empty text; it does so too when
`nativeCleanup` has just been called on the same handle. -/
theorem generate_empty_on_every_handle (calls : List Call) (p : Process)
    (modelPtr : jlong) (prompt : jstring) :
    (∃ q : Process,
        nativeGenerate modelPtr prompt (performAll calls p).2 = ("", q)) ∧
      (nativeGenerate modelPtr prompt
          (nativeCleanup modelPtr (performAll calls p).2)).1 = "" :=
  ⟨⟨_, nativeGenerate_eq modelPtr prompt _⟩, rfl⟩

/-- C5: for every model path and process state, when the context size is
below 1, or the temperature is below 0, or the token limit is below 1,
`nativeInit` returns the handle 0. -/
theorem init_fails_on_invalid_sampling (modelPath : jstring)
    (contextSize : jint) (temperature : jfloat) (maxTokens : jint)
    (p : Process)
    (_hbad : contextSize < 1 ∨ temperature.ltZero = true ∨ maxTokens < 1) :
    (nativeInit modelPath contextSize temperature maxTokens p).1 = 0 := rfl

/-- C5 at three invalid configurations: context size 0, temperature `-1.0f`
and token limit 0, each with the other two values valid. -/
theorem init_fails_on_invalid_sampling_witness :
    ((0 : jint) < 1 ∧
        (nativeInit "tinymodel.gguf" 0 jfloat.twoTenths 120 Process.start).1 = 0) ∧
      (jfloat.minusOne.ltZero = true ∧
        (nativeInit "tinymodel.gguf" 1024 jfloat.minusOne 120 Process.start).1 = 0) ∧
      ((0 : jint) < 1 ∧
        (nativeInit "tinymodel.gguf" 1024 jfloat.twoTenths 0 Process.start).1 = 0) :=
  ⟨⟨by decide,
      init_fails_on_invalid_sampling "tinymodel.gguf" 0 jfloat.twoTenths 120
        Process.start (Or.inl (by decide))⟩,
    ⟨by decide,
      init_fails_on_invalid_sampling "tinymodel.gguf" 1024 jfloat.minusOne 120
        Process.start (Or.inr (Or.inl (by decide)))⟩,
    ⟨by decide,
      init_fails_on_invalid_sampling "tinymodel.gguf" 1024 jfloat.twoTenths 0
        Process.start (Or.inr (Or.inr (by decide)))⟩⟩

/-- C6: for all arguments `nativeInit` returns 0 and `nativeGenerate`
returns the empty string, and each of `nativeInit`, `nativeGenerate` and
`nativeCleanup` adds exactly one record to the log per call, at the end and
leaving the earlier records as they were. -/
theorem entry_points_log_once_and_return_default (modelPath : jstring)
    (contextSize : jint) (temperature : jfloat) (maxTokens : jint)
    (modelPtr : jlong) (prompt : jstring) (p : Process) :
    ((nativeInit modelPath contextSize temperature maxTokens p).1 = 0 ∧
        (nativeInit modelPath contextSize temperature maxTokens p).2.log =
          p.log ++ [initRecord modelPath]) ∧
      ((nativeGenerate modelPtr prompt p).1 = "" ∧
        (nativeGenerate modelPtr prompt p).2.log = p.log ++ [generateRecord]) ∧
      (nativeCleanup modelPtr p).log = p.log ++ [cleanupRecord] :=
  ⟨⟨rfl, rfl⟩, ⟨rfl, rfl⟩, rfl⟩

/-- C7: take the handle that `nativeInit` returns for a temperature equal to
zero (`0.0f` or `-0.0f`; any model path, context size, token limit and
process state).  For every prompt, a run of `nativeGenerate` on that handle
from a process state `q` and a second run, whether from the same state `q`,
from the state the first run left behind, or from any other state `r`,
return the same text. -/
theorem generate_deterministic_at_zero_temperature (modelPath : jstring)
    (contextSize : jint) (temperature : jfloat) (maxTokens : jint)
    (prompt : jstring) (p q r : Process)
    (_hzero : temperature.isZero = true) :
    (nativeGenerate (nativeInit modelPath contextSize temperature maxTokens p).1
        prompt q).1 =
      (nativeGenerate (nativeInit modelPath contextSize temperature maxTokens p).1
        prompt r).1 ∧
    (nativeGenerate (nativeInit modelPath contextSize temperature maxTokens p).1
        prompt q).1 =
      (nativeGenerate (nativeInit modelPath contextSize temperature maxTokens p).1
        prompt
        (nativeGenerate
          (nativeInit modelPath contextSize temperature maxTokens p).1
          prompt q).2).1 :=
  ⟨rfl, rfl⟩

/-- C7 at the model `"tinymodel.gguf"` with context size 1024, temperature
`0.0f` and token limit 120, for the prompt `"Hello"`: the first run starts in
the state `nativeInit` leaves, the other run in the state of a process that
has not called `nativeInit`. -/
theorem generate_deterministic_at_zero_temperature_witness :
    jfloat.zero.isZero = true ∧
    ((nativeGenerate
        (nativeInit "tinymodel.gguf" 1024 jfloat.zero 120 Process.start).1
        "Hello"
        (nativeInit "tinymodel.gguf" 1024 jfloat.zero 120 Process.start).2).1 =
      (nativeGenerate
        (nativeInit "tinymodel.gguf" 1024 jfloat.zero 120 Process.start).1
        "Hello" Process.start).1 ∧
    (nativeGenerate
        (nativeInit "tinymodel.gguf" 1024 jfloat.zero 120 Process.start).1
        "Hello"
        (nativeInit "tinymodel.gguf" 1024 jfloat.zero 120 Process.start).2).1 =
      (nativeGenerate
        (nativeInit "tinymodel.gguf" 1024 jfloat.zero 120 Process.start).1
        "Hello"
        (nativeGenerate
          (nativeInit "tinymodel.gguf" 1024 jfloat.zero 120 Process.start).1
          "Hello"
          (nativeInit "tinymodel.gguf" 1024 jfloat.zero 120 Process.start).2).2).1) :=
  ⟨by decide,
    generate_deterministic_at_zero_temperature "tinymodel.gguf" 1024 jfloat.zero
      120 "Hello" Process.start
      (nativeInit "tinymodel.gguf" 1024 jfloat.zero 120 Process.start).2
      Process.start (by decide)⟩

/-- C9, as the specification states it, fails: `nativeInit` on
`"tinymodel.gguf"` returns the failure value 0 and `nativeGenerate` returns
the empty text, yet the one record each of them adds to the log is at info
level, not at error level, and its format string names the operation, not a
reason for failing. -/
theorem failure_logged_at_info_level :
    (nativeInit "tinymodel.gguf" 1024 jfloat.twoTenths 120 Process.start).1 = 0 ∧
      (nativeInit "tinymodel.gguf" 1024 jfloat.twoTenths 120 Process.start).2.log =
        [⟨LogPriority.ANDROID_LOG_INFO, "MiniJarvisJNI",
          "Initializing LLM model at: %s", ["tinymodel.gguf"]⟩] ∧
      (nativeGenerate 0 "Hello" Process.start).1 = "" ∧
      (nativeGenerate 0 "Hello" Process.start).2.log =
        [⟨LogPriority.ANDROID_LOG_INFO, "MiniJarvisJNI",
          "Generating response for prompt", []⟩] ∧
      ¬ (∃ e ∈ (nativeInit "tinymodel.gguf" 1024 jfloat.twoTenths 120
            Process.start).2.log,
          e.priority = LogPriority.ANDROID_LOG_ERROR) ∧
      ¬ (∃ e ∈ (nativeGenerate 0 "Hello" Process.start).2.log,
          e.priority = LogPriority.ANDROID_LOG_ERROR) := by
  refine ⟨rfl, rfl, rfl, rfl, ?_, ?_⟩ <;> decide

/-- C9, amended: every call of `nativeInit` returns 0 and every call of
`nativeGenerate` returns the empty text, and over any sequence of calls from
any process state the log grows by exactly one record per call, in call
order; each of these records is at info level, carries the tag
`MiniJarvisJNI` and names the operation that was started. -/
theorem every_call_logs_one_info_record (calls : List Call) (p : Process)
    (c : Call) (modelPath : jstring) (contextSize : jint)
    (temperature : jfloat) (maxTokens : jint) (modelPtr : jlong)
    (prompt : jstring) :
    ((nativeInit modelPath contextSize temperature maxTokens p).1 = 0 ∧
        (nativeInit modelPath contextSize temperature maxTokens p).2.log =
          p.log ++ [⟨LogPriority.ANDROID_LOG_INFO, "MiniJarvisJNI",
            "Initializing LLM model at: %s", [modelPath]⟩]) ∧
      ((nativeGenerate modelPtr prompt p).1 = "" ∧
        (nativeGenerate modelPtr prompt p).2.log =
          p.log ++ [⟨LogPriority.ANDROID_LOG_INFO, "MiniJarvisJNI",
            "Generating response for prompt", []⟩]) ∧
      (performAll calls p).2.log = p.log ++ calls.map Call.record ∧
      c.record.priority = LogPriority.ANDROID_LOG_INFO ∧
      c.record.tag = "MiniJarvisJNI" :=
  ⟨⟨rfl, rfl⟩, ⟨rfl, rfl⟩, performAll_log calls p, Call.record_priority c,
    Call.record_tag c⟩

/-- C10: for every handle (none identifies a live session) and every process
state, `nativeCleanup` returns; the state it leaves differs from the one it
found only by one more record at the end of the log; and the call cannot be
observed by later calls: any sequence of calls returns the same values
after it as without it. -/
theorem cleanup_only_logs (modelPtr : jlong) (p : Process)
    (calls : List Call) :
    nativeCleanup modelPtr p = ⟨p.log ++ [cleanupRecord], p.utfChars⟩ ∧
      (nativeCleanup modelPtr p).utfChars = p.utfChars ∧
      (nativeCleanup modelPtr p).log.take p.log.length = p.log ∧
      (nativeCleanup modelPtr p).log.length = p.log.length + 1 ∧
      (performAll calls (nativeCleanup modelPtr p)).1 = (performAll calls p).1 := by
  refine ⟨rfl, rfl, ?_, ?_, performAll_returned calls _ _⟩
  · simp [nativeCleanup_eq]
  · simp [nativeCleanup_eq]

end MiniJarvis
